import Mathlib

/-!
Verification development for the upload-authorization and object-storage-addressing
subsystem of the `final_pj_library_youk` repository (FastAPI backend).

The embedding translates, from the source:
* `app/services/s3_service.py` — key derivation (`generate_s3_key`,
  `generate_thumbnail_key`) and credential issuing
  (`generate_presigned_upload_url`, `generate_presigned_download_url`),
  with the provider (boto3 S3 client) modelled as an optional oracle and
  every provider interaction recorded in an explicit trace component;
* `app/api/v1/upload.py` — the two endpoints `generate_real_presigned_url`
  and `generate_download_url`;
* `app/api/deps.py` — the optional identity resolver `get_current_user_optional`.

Two collaborators whose code is not under `src/` are modelled from the spec and
carry a `Modelled from the spec:` doc comment: `validate_upload_request`
(app/services/file_service.py) and `library_item_crud_get`
(app/crud/library_item.py).

Python string splitting/joining on one-character separators is embedded by
`pySplit`/`pyJoin` on `List Char`; Python decimal rendering of integers is
`Nat.repr`; f-string zero padding `{n:02d}` is `padZero2`.
-/

namespace LibYouk

/-- Python `s.split(sep)` for a one-character separator `sep`: splits at every
occurrence, keeping empty parts, so the result is always non-empty. -/
def pySplit (sep : Char) : List Char → List (List Char)
  | [] => [[]]
  | c :: cs =>
    if c = sep then
      [] :: pySplit sep cs
    else
      match pySplit sep cs with
      | [] => [[c]]
      | r :: rs => (c :: r) :: rs

/-- Python `sep.join(parts)` for a one-character separator. -/
def pyJoin (sep : Char) : List (List Char) → List Char
  | [] => []
  | [p] => p
  | p :: ps => p ++ sep :: pyJoin sep ps

/-- Python f-string format `{n:02d}`: decimal rendering zero-padded to width 2. -/
def padZero2 (n : Nat) : String :=
  if (Nat.repr n).length < 2 then "0" ++ Nat.repr n else Nat.repr n

/-- `S3Service.generate_s3_key` (app/services/s3_service.py).
`year`/`month` stand for `datetime.utcnow()`'s fields and `token` for the fresh
`uuid.uuid4()` string; the Python body is
`file_extension = filename.split('.')[-1] if '.' in filename else ''`,
`unique_filename = f"{uuid4()}.{ext}" if ext else str(uuid4())`,
`f"uploads/{now.year}/{now.month:02d}/{user_id}/{unique_filename}"`. -/
def generate_s3_key (filename user_id : String) (year month : Nat) (token : String) : String :=
  let file_extension : String :=
    if '.' ∈ filename.data then String.mk ((pySplit '.' filename.data).getLastD []) else ""
  let unique_filename : String :=
    if file_extension ≠ "" then token ++ "." ++ file_extension else token
  "uploads/" ++ Nat.repr year ++ "/" ++ padZero2 month ++ "/" ++ user_id ++ "/" ++ unique_filename

/-- `S3Service.generate_thumbnail_key` (app/services/s3_service.py):
splits the key on `/`, rsplits the final segment once on `.`, inserts `_thumb`
before the extension (appends it when the extension part is empty), and rebuilds
`f"thumbnails/{'/'.join(path_parts[1:-1])}/{thumbnail_filename}"`. -/
def generate_thumbnail_key (s3_key : String) : String :=
  let path_parts : List (List Char) := pySplit '/' s3_key.data
  let filename : List Char := path_parts.getLastD []
  let fparts : List (List Char) := pySplit '.' filename
  let name : List Char := if '.' ∈ filename then pyJoin '.' fparts.dropLast else filename
  let ext : List Char := if '.' ∈ filename then fparts.getLastD [] else []
  let thumbnail_filename : List Char :=
    if ext ≠ [] then name ++ "_thumb.".data ++ ext else name ++ "_thumb".data
  String.mk ("thumbnails/".data ++ pyJoin '/' ((path_parts.drop 1).dropLast)
    ++ '/' :: thumbnail_filename)

/-- One condition of an S3 presigned-POST policy, as passed to
`generate_presigned_post` in `generate_presigned_upload_url`:
either an exact field match or the `content-length-range` (inclusive bounds). -/
inductive PostCondition where
  | exactField (nm value : String)
  | contentLengthRange (low high : Nat)
deriving DecidableEq, Repr

/-- The request handed to the provider's `generate_presigned_post`. -/
structure PresignedPostRequest where
  bucket : String
  key : String
  fields : List (String × String)
  conditions : List PostCondition
  expiresIn : Nat
deriving DecidableEq, Repr

/-- The boto3 S3 client, modelled as an oracle: `presignedPost` answers
`generate_presigned_post` (an error models a raised `ClientError`),
`presignedGetUrl` answers `generate_presigned_url('get_object', ...)`. -/
structure ProviderClient where
  presignedPost : PresignedPostRequest → Except String (String × List (String × String))
  presignedGetUrl : String → String → Nat → Except String String

/-- `S3Service` state: `s3_client` is `none` in Degraded mode (no AWS
credentials / failed client construction) and `some` in Live mode. -/
structure S3Service where
  s3_client : Option ProviderClient
  bucket_name : String

/-- The dictionary returned by `generate_presigned_upload_url`. -/
structure UploadUrlInfo where
  upload_url : String
  s3_key : String
  expires_in : Nat
  fields : List (String × String)
  is_mock : Bool
deriving DecidableEq, Repr

/-- `S3Service.generate_presigned_upload_url` (app/services/s3_service.py).
Returns the result (an error models the re-raised exception on `ClientError`)
paired with the provider-call trace: `none` when the provider was never
contacted, `some req` recording the exact presigned-POST request otherwise. -/
def generate_presigned_upload_url (svc : S3Service)
    (filename content_type user_id : String) (year month : Nat) (token : String)
    (expires_in : Nat) :
    Except String UploadUrlInfo × Option PresignedPostRequest :=
  let s3_key := generate_s3_key filename user_id year month token
  match svc.s3_client with
  | none =>
    (Except.ok
      { upload_url :=
          "https://" ++ svc.bucket_name ++ ".s3.amazonaws.com/" ++ s3_key ++ "?mock=true"
        s3_key := s3_key
        expires_in := expires_in
        fields := []
        is_mock := true }, none)
  | some client =>
    let req : PresignedPostRequest :=
      { bucket := svc.bucket_name
        key := s3_key
        fields :=
          [("Content-Type", content_type), ("x-amz-meta-user-id", user_id),
           ("x-amz-meta-original-filename", filename)]
        conditions :=
          [PostCondition.exactField "Content-Type" content_type,
           PostCondition.exactField "x-amz-meta-user-id" user_id,
           PostCondition.exactField "x-amz-meta-original-filename" filename,
           PostCondition.contentLengthRange 1 (100 * 1024 * 1024)]
        expiresIn := expires_in }
    match client.presignedPost req with
    | Except.ok (url, flds) =>
      (Except.ok
        { upload_url := url, s3_key := s3_key, expires_in := expires_in,
          fields := flds, is_mock := false }, some req)
    | Except.error e => (Except.error e, some req)

/-- `S3Service.generate_presigned_download_url` (app/services/s3_service.py).
The second component counts provider calls (0 in Degraded mode, 1 in Live mode);
the returned value is just the URL string, exactly as in the source. -/
def generate_presigned_download_url (svc : S3Service) (s3_key : String)
    (expires_in : Nat) : Except String String × Nat :=
  match svc.s3_client with
  | none =>
    (Except.ok
      ("https://" ++ svc.bucket_name ++ ".s3.amazonaws.com/" ++ s3_key ++ "?mock=true"), 0)
  | some client =>
    match client.presignedGetUrl svc.bucket_name s3_key expires_in with
    | Except.ok url => (Except.ok url, 1)
    | Except.error e => (Except.error e, 1)

/-- The error kinds raised by the two endpoints, with their HTTP status. -/
inductive ApiError where
  | invalidRequest
  | unauthenticated
  | forbidden
  | notFound
  | providerError
deriving DecidableEq, Repr

/-- HTTP status code of each endpoint error. -/
def ApiError.status : ApiError → Nat
  | ApiError.invalidRequest => 400
  | ApiError.unauthenticated => 401
  | ApiError.forbidden => 403
  | ApiError.notFound => 404
  | ApiError.providerError => 500

/-- A row of the `users` table (app/models/user.py): `id` (UUID rendered as a
string, as the endpoint uses `str(current_user.id)`) and `username`. -/
structure User where
  id : String
  username : String
deriving DecidableEq, Repr

/-- Modelled from the spec: `file_service.validate_upload_request`
(app/services/file_service.py is not under src/). Spec section 4.2: checks, in
order, short-circuiting on first failure: filename non-empty and within a
maximum length; content type present and matching an allow-listed set or
pattern; declared size within [1 byte, 100 MiB] inclusive. The unspecified
maximum length and allow-list are parameters. -/
def validate_upload_request (max_filename_length : Nat)
    (content_type_ok : String → Bool) (filename content_type : String)
    (file_size : Nat) : Bool × Option String :=
  if filename = "" then (false, some "filename is empty")
  else if max_filename_length < filename.length then (false, some "filename too long")
  else if content_type = "" then (false, some "content type is missing")
  else if ¬ content_type_ok content_type then (false, some "content type not allowed")
  else if file_size < 1 then (false, some "file size below minimum")
  else if 100 * 1024 * 1024 < file_size then (false, some "file size above maximum")
  else (true, none)

/-- The `PresignedUrlResponse` data returned by the upload endpoint
(the source forwards `upload_url`, `s3_key`, `expires_in` and `fields` from
`upload_info`; the `is_mock` entry is not part of the response schema). -/
structure PresignedUrlResponse where
  upload_url : String
  s3_key : String
  expires_in : Nat
  fields : List (String × String)
deriving DecidableEq, Repr

/-- Endpoint `generate_real_presigned_url` (app/api/v1/upload.py):
validate; if invalid raise 400; if no caller identity then raise 401 unless
`settings.DEBUG`, in which case the fixed placeholder `"test-user"` is used;
then call `s3_service.generate_presigned_upload_url` (default
`expires_in=3600`); any exception from it becomes a 500. The second component
is the provider-call trace of that call (`none` when it never happened). -/
def generate_real_presigned_url (max_filename_length : Nat)
    (content_type_ok : String → Bool) (svc : S3Service) (debug : Bool)
    (current_user : Option User) (filename content_type : String)
    (file_size : Nat) (year month : Nat) (token : String) :
    Except ApiError PresignedUrlResponse × Option PresignedPostRequest :=
  let v := validate_upload_request max_filename_length content_type_ok
    filename content_type file_size
  if v.1 = false then (Except.error ApiError.invalidRequest, none)
  else
    let user_id? : Option String :=
      match current_user with
      | none => if debug then some "test-user" else none
      | some u => some u.id
    match user_id? with
    | none => (Except.error ApiError.unauthenticated, none)
    | some user_id =>
      match generate_presigned_upload_url svc filename content_type user_id
          year month token 3600 with
      | (Except.ok info, trace) =>
        (Except.ok
          { upload_url := info.upload_url, s3_key := info.s3_key,
            expires_in := info.expires_in, fields := info.fields }, trace)
      | (Except.error _, trace) => (Except.error ApiError.providerError, trace)

/-- Visibility enum of `library_items` (app/models/library_item.py). -/
inductive VisibilityType where
  | public
  | «private»
deriving DecidableEq, BEq, Repr

/-- A row of the `library_items` table (app/models/library_item.py), restricted
to the fields the download endpoint reads. `deleted_at` is the soft-deletion
timestamp (`none` = active). -/
structure LibraryItem where
  id : String
  user_profile_id : String
  name : String
  visibility : VisibilityType
  s3_thumbnail_key : Option String
  s3_key : String
  file_size : Nat
  original_filename : String
  deleted_at : Option Nat
deriving DecidableEq, Repr

/-- Modelled from the spec: `library_item_crud.get`
(app/crud/library_item.py is not under src/). The spec's Item Directory
resolves records by id, and per spec rule 1 and the soft-deletion glossary
entry a soft-deleted record is excluded from normal access, indistinguishable
from a non-existent one, so the lookup skips rows with `deleted_at` set. -/
def library_item_crud_get (db : List LibraryItem) (item_id : String) :
    Option LibraryItem :=
  (db.filter (fun it => it.deleted_at.isNone)).find? (fun it => it.id == item_id)

/-- The data dictionary returned by the download endpoint. -/
structure DownloadResponse where
  download_url : String
  filename : String
  file_size : String
  thumbnail_url : Option String
deriving DecidableEq, Repr

/-- Python `==` between a plain `enum.Enum` member and a `str` is always `False`:
`VisibilityType` (app/models/library_item.py) does not mix in `str`, and rows
loaded through `Column(Enum(VisibilityType))` carry enum members, so the
comparison `item.visibility == "public"` in the download endpoint never holds,
whatever the member and whatever the string. This function embeds that
cross-type comparison with Python's semantics. -/
def enumEqStr (v : VisibilityType) (s : String) : Bool := false

/-- Endpoint `generate_download_url` (app/api/v1/upload.py). The caller is the
result of the required dependency `get_current_active_user`, which raises 401
when no valid identity is attached, hence the `none` branch. Then: item lookup
(404 when absent), owner-or-public check (403) — where the source's
`is_public = item.visibility == "public"` is an enum-member-vs-string
comparison, embedded by `enumEqStr` (always false, per Python semantics) —
then a presigned download URL for `s3_key` and, when `s3_thumbnail_key` is
set, a second one for the thumbnail; exceptions from the provider become a
500. The second component counts provider calls. -/
def generate_download_url (svc : S3Service) (db : List LibraryItem)
    (current_user : Option User) (item_id : String) :
    Except ApiError DownloadResponse × Nat :=
  match current_user with
  | none => (Except.error ApiError.unauthenticated, 0)
  | some user =>
    match library_item_crud_get db item_id with
    | none => (Except.error ApiError.notFound, 0)
    | some item =>
      let is_owner : Bool := item.user_profile_id == user.id
      let is_public : Bool := enumEqStr item.visibility "public"
      if ¬ (is_owner || is_public) then (Except.error ApiError.forbidden, 0)
      else
        match generate_presigned_download_url svc item.s3_key 3600 with
        | (Except.error _, n1) => (Except.error ApiError.providerError, n1)
        | (Except.ok url, n1) =>
          match item.s3_thumbnail_key with
          | none =>
            (Except.ok
              { download_url := url, filename := item.original_filename,
                file_size := Nat.repr item.file_size, thumbnail_url := none }, n1)
          | some tk =>
            match generate_presigned_download_url svc tk 3600 with
            | (Except.error _, n2) => (Except.error ApiError.providerError, n1 + n2)
            | (Except.ok turl, n2) =>
              (Except.ok
                { download_url := url, filename := item.original_filename,
                  file_size := Nat.repr item.file_size,
                  thumbnail_url := some turl }, n1 + n2)

/-- `get_current_user_optional` (app/api/deps.py). `credentials` is `none` when
no bearer token is attached. For a present token, `Except.error ()` models
`jwt.decode` raising `JWTError` (malformed, wrongly signed or expired token);
`Except.ok s` models a decoded payload with `s = payload.get("sub")`.
`lookup_user` is `user_crud.get_by_username`. Every failure path returns
`none` instead of raising, exactly as in the source. -/
def get_current_user_optional (lookup_user : String → Option User)
    (credentials : Option (Except Unit (Option String))) : Option User :=
  match credentials with
  | none => none
  | some (Except.error _) => none
  | some (Except.ok none) => none
  | some (Except.ok (some sub)) => lookup_user sub

/-- A degraded-mode service (no AWS credentials), for concrete evaluations. -/
def degradedService : S3Service :=
  { s3_client := none, bucket_name := "bucket" }

/-- The placeholder identity substituted under the debug flag. -/
def test_user : User :=
  { id := "test-user", username := "test-user" }

/-- A concrete public, non-deleted item. -/
def samplePublicItem : LibraryItem :=
  { id := "i1", user_profile_id := "owner-1", name := "pic",
    visibility := VisibilityType.public, s3_thumbnail_key := none,
    s3_key := "uploads/2024/12/owner-1/tok.jpg", file_size := 5,
    original_filename := "pic.jpg", deleted_at := none }

/-- A concrete soft-deleted item (same shape, `deleted_at` set). -/
def sampleDeletedItem : LibraryItem :=
  { id := "i1", user_profile_id := "owner-1", name := "pic",
    visibility := VisibilityType.public, s3_thumbnail_key := none,
    s3_key := "uploads/2024/12/owner-1/tok.jpg", file_size := 5,
    original_filename := "pic.jpg", deleted_at := some 1700000000 }

/-- A concrete caller who is not the owner of the sample items. -/
def callerB : User :=
  { id := "user-B", username := "user-B" }

/-! ### Helper lemmas: strings and `pySplit` -/

theorem data_append (s t : String) : (s ++ t).data = s.data ++ t.data := rfl

theorem pySplit_ne_nil (sep : Char) (xs : List Char) : pySplit sep xs ≠ [] := by
  cases xs with
  | nil => simp [pySplit]
  | cons c cs =>
    simp only [pySplit]
    split
    · simp
    · split <;> simp

theorem pySplit_cons_sep (sep : Char) (cs : List Char) :
    pySplit sep (sep :: cs) = [] :: pySplit sep cs := by
  simp [pySplit]

theorem pySplit_cons_of_ne {sep c : Char} {cs r : List Char} {rs : List (List Char)}
    (hc : c ≠ sep) (hp : pySplit sep cs = r :: rs) :
    pySplit sep (c :: cs) = (c :: r) :: rs := by
  simp [pySplit, hc, hp]

theorem pySplit_of_not_mem {sep : Char} {xs : List Char} (h : sep ∉ xs) :
    pySplit sep xs = [xs] := by
  induction xs with
  | nil => rfl
  | cons c cs ih =>
    have hc : c ≠ sep := fun hc => h (hc ▸ List.mem_cons_self c cs)
    have hcs : sep ∉ cs := fun hm => h (List.mem_cons_of_mem _ hm)
    exact pySplit_cons_of_ne hc (ih hcs)

theorem two_le_pySplit_length {sep : Char} {xs : List Char} (h : sep ∈ xs) :
    2 ≤ (pySplit sep xs).length := by
  induction xs with
  | nil => cases h
  | cons c cs ih =>
    by_cases hc : c = sep
    · subst hc
      rw [pySplit_cons_sep]
      have hpos : 0 < (pySplit c cs).length :=
        List.length_pos.mpr (pySplit_ne_nil c cs)
      simp only [List.length_cons]
      omega
    · have hcs : sep ∈ cs := by
        rcases List.mem_cons.mp h with h1 | h2
        · exact absurd h1.symm hc
        · exact h2
      cases hp : pySplit sep cs with
      | nil => exact absurd hp (pySplit_ne_nil sep cs)
      | cons r rs =>
        have h2 := ih hcs
        rw [hp] at h2
        rw [pySplit_cons_of_ne hc hp]
        simpa using h2

theorem pySplit_append {sep : Char} {xs : List Char} (ys : List Char) (h : sep ∉ xs) :
    pySplit sep (xs ++ sep :: ys) = xs :: pySplit sep ys := by
  induction xs with
  | nil => simpa using pySplit_cons_sep sep ys
  | cons c cs ih =>
    have hc : c ≠ sep := fun hc => h (hc ▸ List.mem_cons_self c cs)
    have hcs : sep ∉ cs := fun hm => h (List.mem_cons_of_mem _ hm)
    rw [List.cons_append, pySplit_cons_of_ne hc (ih hcs)]

theorem pySplit_last_decomp {sep : Char} {xs : List Char} (h : sep ∈ xs) :
    ∃ pre, xs = pre ++ sep :: (pySplit sep xs).getLastD []
      ∧ sep ∉ (pySplit sep xs).getLastD [] := by
  induction xs with
  | nil => cases h
  | cons c cs ih =>
    by_cases hc : c = sep
    · subst hc
      by_cases hmem : c ∈ cs
      · obtain ⟨pre, hdec, hnot⟩ := ih hmem
        have hkey : (pySplit c (c :: cs)).getLastD [] = (pySplit c cs).getLastD [] := by
          cases hp : pySplit c cs with
          | nil => exact absurd hp (pySplit_ne_nil c cs)
          | cons r rs => rw [pySplit_cons_sep, hp, List.getLastD_cons]
        rw [hkey]
        exact ⟨c :: pre, by rw [List.cons_append, ← hdec], hnot⟩
      · have hp : pySplit c cs = [cs] := pySplit_of_not_mem hmem
        have hkey : (pySplit c (c :: cs)).getLastD [] = cs := by
          rw [pySplit_cons_sep, hp]
          simp only [List.getLastD_cons]
          rfl
        rw [hkey]
        exact ⟨[], by simp, hmem⟩
    · have hcs : sep ∈ cs := by
        rcases List.mem_cons.mp h with h1 | h2
        · exact absurd h1.symm hc
        · exact h2
      obtain ⟨pre, hdec, hnot⟩ := ih hcs
      cases hp : pySplit sep cs with
      | nil => exact absurd hp (pySplit_ne_nil sep cs)
      | cons r rs =>
        cases rs with
        | nil =>
          have h2 := two_le_pySplit_length hcs
          rw [hp] at h2
          simp at h2
        | cons r2 rs2 =>
          have hkey : (pySplit sep (c :: cs)).getLastD []
              = (pySplit sep cs).getLastD [] := by
            rw [pySplit_cons_of_ne hc hp, hp]
            simp only [List.getLastD_cons]
          rw [hkey]
          exact ⟨c :: pre, by rw [List.cons_append, ← hdec], hnot⟩

theorem pySplit_last_nil {sep : Char} (g : List Char) :
    (pySplit sep (g ++ [sep])).getLastD [] = [] := by
  have hmem : sep ∈ g ++ [sep] := by simp
  obtain ⟨pre, hdec, hnot⟩ := pySplit_last_decomp hmem
  rcases List.eq_nil_or_concat ((pySplit sep (g ++ [sep])).getLastD []) with hnil | ⟨L, b, hcat⟩
  · exact hnil
  · exfalso
    rw [hcat] at hdec hnot
    have h1 : (g ++ [sep]).getLast? = some sep := List.getLast?_concat g
    have hsplit : pre ++ sep :: L.concat b = (pre ++ sep :: L) ++ [b] := by
      simp [List.concat_eq_append]
    rw [hdec, hsplit, List.getLast?_concat] at h1
    have hb : b = sep := by injection h1
    exact hnot (by simp [List.concat_eq_append, hb])

/-! ### Helper lemmas: decimal rendering (`Nat.repr`, `padZero2`) -/

theorem mem_toDigitsCore_ten : ∀ (f n : Nat) (l : List Char) (c : Char),
    c ∈ Nat.toDigitsCore 10 f n l → c ∈ l ∨ ∃ m, m < 10 ∧ c = Nat.digitChar m := by
  intro f
  induction f with
  | zero => intro n l c hc; exact Or.inl hc
  | succ f ih =>
    intro n l c hc
    simp only [Nat.toDigitsCore] at hc
    by_cases h0 : n / 10 = 0
    · rw [if_pos h0] at hc
      rcases List.mem_cons.mp hc with h1 | h2
      · exact Or.inr ⟨n % 10, Nat.mod_lt n (by omega), h1⟩
      · exact Or.inl h2
    · rw [if_neg h0] at hc
      rcases ih (n / 10) (Nat.digitChar (n % 10) :: l) c hc with h1 | h2
      · rcases List.mem_cons.mp h1 with h3 | h4
        · exact Or.inr ⟨n % 10, Nat.mod_lt n (by omega), h3⟩
        · exact Or.inl h4
      · exact Or.inr h2

theorem repr_data_eq (n : Nat) :
    (Nat.repr n).data = Nat.toDigitsCore 10 (n + 1) n [] := rfl

theorem slash_not_mem_repr (n : Nat) : '/' ∉ (Nat.repr n).data := by
  intro hmem
  rw [repr_data_eq] at hmem
  rcases mem_toDigitsCore_ten (n + 1) n [] '/' hmem with h | ⟨m, hm, he⟩
  · cases h
  · have hall : ∀ m, m < 10 → Nat.digitChar m ≠ '/' := by decide
    exact hall m hm he.symm

theorem slash_not_mem_padZero2 (n : Nat) : '/' ∉ (padZero2 n).data := by
  unfold padZero2
  split
  · intro hmem
    rw [data_append] at hmem
    rcases List.mem_append.mp hmem with h1 | h2
    · simp at h1
    · exact slash_not_mem_repr n h2
  · exact slash_not_mem_repr n

theorem toDigitsCore_length_lower (b : Nat) (hb : 2 ≤ b) :
    ∀ (e f n : Nat), b ^ e ≤ n → n < f →
      e + 1 ≤ (Nat.toDigitsCore b f n []).length := by
  intro e
  induction e with
  | zero =>
    intro f n hle hf
    cases f with
    | zero => omega
    | succ f =>
      simp only [Nat.toDigitsCore]
      by_cases h0 : n / b = 0
      · rw [if_pos h0]
        simp
      · rw [if_neg h0]
        rw [Nat.toDigitsCore_lens_eq]
        omega
  | succ e ih =>
    intro f n hle hf
    have hbpos : 0 < b := by omega
    have hn2 : b ≤ n := le_trans (Nat.le_self_pow (by omega) b) hle
    have hdiv : b ^ e ≤ n / b := by
      rw [Nat.le_div_iff_mul_le hbpos]
      calc b ^ e * b = b ^ (e + 1) := (pow_succ b e).symm
        _ ≤ n := hle
    have hdiv0 : n / b ≠ 0 := by
      intro h0
      rw [h0] at hdiv
      have := Nat.pos_pow_of_pos e hbpos
      omega
    cases f with
    | zero => omega
    | succ f =>
      simp only [Nat.toDigitsCore]
      rw [if_neg hdiv0, Nat.toDigitsCore_lens_eq]
      have hlt : n / b < f := by
        have h1 : n / b < n := Nat.div_lt_self (by omega) (by omega)
        omega
      have := ih f (n / b) hdiv hlt
      omega

theorem repr_length_four (y : Nat) (h1 : 1000 ≤ y) (h2 : y < 10000) :
    (Nat.repr y).length = 4 := by
  have e4 : (10 : Nat) ^ 4 = 10000 := by norm_num
  have e3 : (10 : Nat) ^ 3 = 1000 := by norm_num
  have hub := Nat.repr_length y 4 (by omega) (by omega)
  have hlb := toDigitsCore_length_lower 10 (by omega) 3 (y + 1) y (by omega) (by omega)
  have hdata : (Nat.repr y).length = (Nat.toDigitsCore 10 (y + 1) y []).length := rfl
  omega

theorem padZero2_length_two : ∀ m, m ≤ 12 → 1 ≤ m → (padZero2 m).length = 2 := by
  decide

/-! ### Helper lemmas: shape of storage keys -/

theorem generate_s3_key_of_no_dot {f : String} (o : String) (y m : Nat) (t : String)
    (hdot : '.' ∉ f.data) :
    generate_s3_key f o y m t =
      "uploads/" ++ Nat.repr y ++ "/" ++ padZero2 m ++ "/" ++ o ++ "/" ++ t := by
  unfold generate_s3_key
  simp [hdot]

theorem generate_s3_key_of_last_nil {f : String} (o : String) (y m : Nat) (t : String)
    (hdot : '.' ∈ f.data) (hnil : (pySplit '.' f.data).getLastD [] = []) :
    generate_s3_key f o y m t =
      "uploads/" ++ Nat.repr y ++ "/" ++ padZero2 m ++ "/" ++ o ++ "/" ++ t := by
  unfold generate_s3_key
  have hext : (String.mk [] : String) = "" := rfl
  rw [List.getLastD_eq_getLast?] at hnil
  simp [hdot, hnil, hext]

theorem generate_s3_key_of_last_ne {f : String} (o : String) (y m : Nat) (t : String)
    (hdot : '.' ∈ f.data) (hnil : (pySplit '.' f.data).getLastD [] ≠ []) :
    generate_s3_key f o y m t =
      "uploads/" ++ Nat.repr y ++ "/" ++ padZero2 m ++ "/" ++ o ++ "/" ++
        (t ++ "." ++ String.mk ((pySplit '.' f.data).getLastD [])) := by
  unfold generate_s3_key
  rw [List.getLastD_eq_getLast?] at hnil
  have hne : String.mk ((pySplit '.' f.data).getLast?.getD []) ≠ "" := by
    intro he
    exact hnil (by simpa [String.ext_iff] using he)
  simp [hdot, hne, List.getLastD_eq_getLast?]

theorem key_data_shape (yS mS o U : String) :
    ("uploads/" ++ yS ++ "/" ++ mS ++ "/" ++ o ++ "/" ++ U).data
      = "uploads".data ++ '/' :: (yS.data ++ '/' :: (mS.data ++ '/' :: (o.data ++ '/' :: U.data))) := by
  have h1 : "uploads/".data = "uploads".data ++ ['/'] := rfl
  have h2 : "/".data = ['/'] := rfl
  simp only [data_append, h1, h2, List.append_assoc, List.singleton_append]
  rfl

theorem pySplit_storage_key (yS mS o U : String)
    (hy : '/' ∉ yS.data) (hm : '/' ∉ mS.data) (ho : '/' ∉ o.data) (hU : '/' ∉ U.data) :
    pySplit '/' ("uploads/" ++ yS ++ "/" ++ mS ++ "/" ++ o ++ "/" ++ U).data
      = ["uploads".data, yS.data, mS.data, o.data, U.data] := by
  rw [key_data_shape]
  rw [pySplit_append _ (by decide)]
  rw [pySplit_append _ hy]
  rw [pySplit_append _ hm]
  rw [pySplit_append _ ho]
  rw [pySplit_of_not_mem hU]

/-! ### C5 and C10: storage-key format -/

/-- C5: for every filename and non-empty ownerId, `generate_s3_key` returns a key of the
form `uploads/<4-digit-year>/<zero-padded 2-digit month>/<ownerId>/<token>.<ext>`, where
`<ext>` is the substring of the filename after its last dot (the decomposition
`f.data = pre ++ '.' :: ext` with `'.' ∉ ext` pins it as the part after the *last* dot)
and the dot before `<ext>` is omitted when the filename has no extension (no dot at all,
or an empty part after the last dot). The operation is a total function — no failure
modes. The year renders as 4 digits for any year between 1000 and 9999 (in particular
every contemporary `datetime.utcnow()` year), and the month as exactly 2 digits. -/
theorem storage_key_format (f o : String) (y m : Nat) (t : String) (ho : o ≠ "") :
    (('.' ∉ f.data →
        generate_s3_key f o y m t =
          "uploads/" ++ Nat.repr y ++ "/" ++ padZero2 m ++ "/" ++ o ++ "/" ++ t)
      ∧ ('.' ∈ f.data →
        ∃ pre ext, f.data = pre ++ '.' :: ext ∧ '.' ∉ ext ∧
          generate_s3_key f o y m t =
            "uploads/" ++ Nat.repr y ++ "/" ++ padZero2 m ++ "/" ++ o ++ "/" ++
              (if ext = [] then t else t ++ "." ++ String.mk ext)))
    ∧ (1000 ≤ y → y < 10000 → (Nat.repr y).length = 4)
    ∧ (1 ≤ m → m ≤ 12 → (padZero2 m).length = 2) := by
  refine ⟨⟨fun hdot => generate_s3_key_of_no_dot o y m t hdot, fun hdot => ?_⟩,
    fun h1 h2 => repr_length_four y h1 h2,
    fun h1 h2 => padZero2_length_two m h2 h1⟩
  obtain ⟨pre, hdec, hnot⟩ := pySplit_last_decomp hdot
  refine ⟨pre, (pySplit '.' f.data).getLastD [], hdec, hnot, ?_⟩
  by_cases hnil : (pySplit '.' f.data).getLastD [] = []
  · rw [if_pos hnil]
    exact generate_s3_key_of_last_nil o y m t hdot hnil
  · rw [if_neg hnil]
    exact generate_s3_key_of_last_ne o y m t hdot hnil

/-- Witness for C5 at a concrete input (dotless filename branch plus digit widths). -/
theorem storage_key_format_witness :
    generate_s3_key "README" "user-42" 2024 12 "token"
      = "uploads/" ++ Nat.repr 2024 ++ "/" ++ padZero2 12 ++ "/" ++ "user-42" ++ "/" ++ "token"
    ∧ (Nat.repr 2024).length = 4 ∧ (padZero2 12).length = 2 :=
  ⟨(storage_key_format "README" "user-42" 2024 12 "token" (by decide)).1.1 (by decide),
   (storage_key_format "README" "user-42" 2024 12 "token" (by decide)).2.1
     (by omega) (by omega),
   (storage_key_format "README" "user-42" 2024 12 "token" (by decide)).2.2
     (by omega) (by omega)⟩

/-- C10: a filename whose last dot-separated part is empty (a filename ending in a
dot) is treated as having no extension: the produced key's final segment is the bare
token with no trailing dot, even though the filename contains a dot. -/
theorem trailing_dot_no_extension (f o : String) (y m : Nat) (t : String) (g : String)
    (hg : f = g ++ ".") :
    '.' ∈ f.data ∧
    generate_s3_key f o y m t =
      "uploads/" ++ Nat.repr y ++ "/" ++ padZero2 m ++ "/" ++ o ++ "/" ++ t := by
  subst hg
  have hdata : (g ++ ".").data = g.data ++ ['.'] := by
    rw [data_append]
  have hdot : '.' ∈ (g ++ ".").data := by
    rw [hdata]
    simp
  refine ⟨hdot, ?_⟩
  have hnil : (pySplit '.' ((g ++ ".").data)).getLastD [] = [] := by
    rw [hdata]
    exact pySplit_last_nil g.data
  exact generate_s3_key_of_last_nil o y m t hdot hnil

/-- Witness for C10 at the filename "archive.". -/
theorem trailing_dot_no_extension_witness :
    '.' ∈ ("archive." : String).data ∧
    generate_s3_key "archive." "user-42" 2024 12 "token"
      = "uploads/" ++ Nat.repr 2024 ++ "/" ++ padZero2 12 ++ "/" ++ "user-42" ++ "/" ++ "token" :=
  trailing_dot_no_extension "archive." "user-42" 2024 12 "token" "archive" rfl

/-! ### C6: thumbnail-key derivation -/

theorem data_mk (l : List Char) : (String.mk l).data = l := rfl

theorem generate_thumbnail_key_no_dot_seg (yS mS o t : String)
    (hy : '/' ∉ yS.data) (hm : '/' ∉ mS.data) (ho : '/' ∉ o.data)
    (ht : '/' ∉ t.data) (ht2 : '.' ∉ t.data) :
    generate_thumbnail_key ("uploads/" ++ yS ++ "/" ++ mS ++ "/" ++ o ++ "/" ++ t)
      = "thumbnails/" ++ yS ++ "/" ++ mS ++ "/" ++ o ++ "/" ++ (t ++ "_thumb") := by
  unfold generate_thumbnail_key
  rw [pySplit_storage_key yS mS o t hy hm ho ht]
  simp only [List.getLastD_cons, List.drop, List.dropLast, pyJoin, ht2]
  apply String.ext
  simp only [data_mk, data_append]
  have h1 : "thumbnails/".data = "thumbnails".data ++ ['/'] := rfl
  have h2 : "/".data = ['/'] := rfl
  simp [h1, h2, List.append_assoc, ht2]

theorem generate_thumbnail_key_dot_seg (yS mS o t : String) (ext : List Char)
    (hy : '/' ∉ yS.data) (hm : '/' ∉ mS.data) (ho : '/' ∉ o.data)
    (ht : '/' ∉ t.data) (ht2 : '.' ∉ t.data)
    (hext_ne : ext ≠ []) (hext_nodot : '.' ∉ ext) (hext_noslash : '/' ∉ ext) :
    generate_thumbnail_key
        ("uploads/" ++ yS ++ "/" ++ mS ++ "/" ++ o ++ "/" ++ (t ++ "." ++ String.mk ext))
      = "thumbnails/" ++ yS ++ "/" ++ mS ++ "/" ++ o ++ "/"
          ++ (t ++ "_thumb." ++ String.mk ext) := by
  have hUdata : (t ++ "." ++ String.mk ext).data = t.data ++ '.' :: ext := by
    simp only [data_append, data_mk]
    have h3 : ".".data = ['.'] := rfl
    simp [h3]
  have hU : '/' ∉ (t ++ "." ++ String.mk ext).data := by
    rw [hUdata]
    intro hmem
    rcases List.mem_append.mp hmem with h | h
    · exact ht h
    · rcases List.mem_cons.mp h with h | h
      · cases h
      · exact hext_noslash h
  have hdotU : '.' ∈ (t ++ "." ++ String.mk ext).data := by
    rw [hUdata]
    simp
  have hsplit2 : pySplit '.' (t.data ++ '.' :: ext) = [t.data, ext] := by
    rw [pySplit_append ext ht2, pySplit_of_not_mem hext_nodot]
  unfold generate_thumbnail_key
  rw [pySplit_storage_key yS mS o _ hy hm ho hU]
  simp only [List.getLastD_cons, List.drop, List.dropLast, pyJoin, hdotU, hUdata,
    hsplit2, if_true, hext_ne]
  apply String.ext
  simp only [data_mk, data_append]
  have h1 : "thumbnails/".data = "thumbnails".data ++ ['/'] := rfl
  have h2 : "/".data = ['/'] := rfl
  simp [h1, h2, List.append_assoc, hsplit2, hext_ne, pyJoin]

/-- C6: for every filename `f` and ownerId `o` (with the usual hygiene: no path
separator in the filename, owner id, or token, and no dot in the random token —
`uuid4` strings contain neither), `generate_thumbnail_key` applied to
`generate_s3_key f o y m t` starts with `thumbnails/`, keeps the interior path
segments (year, month, ownerId) identical to the storage key's, and its final
segment is the storage key's filename with `_thumb` inserted before the extension
(left disjunct) or appended when there is no extension (right disjunct). -/
theorem thumbnail_key_relation (f o : String) (y m : Nat) (t : String)
    (ho : '/' ∉ o.data) (hf : '/' ∉ f.data) (ht : '/' ∉ t.data) (ht2 : '.' ∉ t.data) :
    (∃ ext : List Char, ext ≠ [] ∧ '.' ∉ ext ∧
        generate_s3_key f o y m t =
          "uploads/" ++ Nat.repr y ++ "/" ++ padZero2 m ++ "/" ++ o ++ "/"
            ++ (t ++ "." ++ String.mk ext) ∧
        generate_thumbnail_key (generate_s3_key f o y m t) =
          "thumbnails/" ++ Nat.repr y ++ "/" ++ padZero2 m ++ "/" ++ o ++ "/"
            ++ (t ++ "_thumb." ++ String.mk ext))
    ∨ (generate_s3_key f o y m t =
          "uploads/" ++ Nat.repr y ++ "/" ++ padZero2 m ++ "/" ++ o ++ "/" ++ t ∧
        generate_thumbnail_key (generate_s3_key f o y m t) =
          "thumbnails/" ++ Nat.repr y ++ "/" ++ padZero2 m ++ "/" ++ o ++ "/"
            ++ (t ++ "_thumb")) := by
  by_cases hdot : '.' ∈ f.data
  · by_cases hnil : (pySplit '.' f.data).getLastD [] = []
    · right
      have hkey := generate_s3_key_of_last_nil o y m t hdot hnil
      refine ⟨hkey, ?_⟩
      rw [hkey]
      exact generate_thumbnail_key_no_dot_seg (Nat.repr y) (padZero2 m) o t
        (slash_not_mem_repr y) (slash_not_mem_padZero2 m) ho ht ht2
    · left
      obtain ⟨pre, hdec, hnot⟩ := pySplit_last_decomp hdot
      have hkey := generate_s3_key_of_last_ne o y m t hdot hnil
      have hext_noslash : '/' ∉ (pySplit '.' f.data).getLastD [] := by
        intro hmem
        apply hf
        rw [hdec]
        exact List.mem_append.mpr (Or.inr (List.mem_cons_of_mem _ hmem))
      refine ⟨(pySplit '.' f.data).getLastD [], hnil, hnot, hkey, ?_⟩
      rw [hkey]
      exact generate_thumbnail_key_dot_seg (Nat.repr y) (padZero2 m) o t _
        (slash_not_mem_repr y) (slash_not_mem_padZero2 m) ho ht ht2
        hnil hnot hext_noslash
  · right
    have hkey := generate_s3_key_of_no_dot o y m t hdot
    refine ⟨hkey, ?_⟩
    rw [hkey]
    exact generate_thumbnail_key_no_dot_seg (Nat.repr y) (padZero2 m) o t
      (slash_not_mem_repr y) (slash_not_mem_padZero2 m) ho ht ht2

/-- Witness for C6 at the spec's own example `photo.jpg` / `user-42`. -/
theorem thumbnail_key_relation_witness :
    (∃ ext : List Char, ext ≠ [] ∧ '.' ∉ ext ∧
        generate_s3_key "photo.jpg" "user-42" 2024 12 "token" =
          "uploads/" ++ Nat.repr 2024 ++ "/" ++ padZero2 12 ++ "/" ++ "user-42" ++ "/"
            ++ ("token" ++ "." ++ String.mk ext) ∧
        generate_thumbnail_key (generate_s3_key "photo.jpg" "user-42" 2024 12 "token") =
          "thumbnails/" ++ Nat.repr 2024 ++ "/" ++ padZero2 12 ++ "/" ++ "user-42" ++ "/"
            ++ ("token" ++ "_thumb." ++ String.mk ext))
    ∨ (generate_s3_key "photo.jpg" "user-42" 2024 12 "token" =
          "uploads/" ++ Nat.repr 2024 ++ "/" ++ padZero2 12 ++ "/" ++ "user-42" ++ "/"
            ++ "token" ∧
        generate_thumbnail_key (generate_s3_key "photo.jpg" "user-42" 2024 12 "token") =
          "thumbnails/" ++ Nat.repr 2024 ++ "/" ++ padZero2 12 ++ "/" ++ "user-42" ++ "/"
            ++ ("token" ++ "_thumb")) :=
  thumbnail_key_relation "photo.jpg" "user-42" 2024 12 "token"
    (by decide) (by decide) (by decide) (by decide)

/-! ### C1 and C2: download authorization -/

/-- C1 as stated ("denies with NotFound for every caller") is false on the code: a
caller with no identity at all is denied with 401 Unauthenticated by the endpoint's
required dependency `get_current_active_user`, before the item is even looked up —
not with NotFound — as this concrete soft-deleted item shows. -/
theorem deleted_item_anonymous_not_notfound :
    sampleDeletedItem.deleted_at ≠ none
    ∧ generate_download_url degradedService [sampleDeletedItem] none "i1"
        = (Except.error ApiError.unauthenticated, 0)
    ∧ (Except.error ApiError.unauthenticated : Except ApiError DownloadResponse)
        ≠ Except.error ApiError.notFound :=
  ⟨by decide, rfl, fun h => ApiError.noConfusion (Except.error.inj h)⟩

/-- C1 corrected: for every item record whose `deleted_at` is set, the
download-credential operation denies with NotFound (404) for every *authenticated*
caller — including the item's owner — while an anonymous caller is denied even
earlier with 401 Unauthenticated; in all cases no download or thumbnail credential
is ever issued for the soft-deleted item by any caller (zero provider calls, never
an `ok` response). The item lookup excluding soft-deleted rows is spec-modelled
(`library_item_crud_get`); the endpoint logic is from the source. -/
theorem deleted_item_download_denied (svc : S3Service) (db : List LibraryItem)
    (item_id : String) (h : ∀ it ∈ db, it.id = item_id → it.deleted_at ≠ none) :
    (∀ u : User,
      generate_download_url svc db (some u) item_id = (Except.error ApiError.notFound, 0))
    ∧ generate_download_url svc db none item_id = (Except.error ApiError.unauthenticated, 0)
    ∧ ∀ cu : Option User, (generate_download_url svc db cu item_id).2 = 0
        ∧ ∀ r : DownloadResponse,
            (generate_download_url svc db cu item_id).1 ≠ Except.ok r := by
  have hget : library_item_crud_get db item_id = none := by
    unfold library_item_crud_get
    rw [List.find?_eq_none]
    intro x hx
    rw [List.mem_filter] at hx
    obtain ⟨hxdb, hxdel⟩ := hx
    intro hbeq
    have hid : x.id = item_id := by simpa using hbeq
    have hdel : x.deleted_at = none := by
      cases hdel2 : x.deleted_at with
      | none => rfl
      | some v => rw [hdel2] at hxdel; simp at hxdel
    exact h x hxdb hid hdel
  refine ⟨?_, rfl, ?_⟩
  · intro u
    unfold generate_download_url
    rw [hget]
  · intro cu
    cases cu with
    | none => exact ⟨rfl, fun r => by simp [generate_download_url]⟩
    | some u =>
      constructor
      · unfold generate_download_url
        rw [hget]
      · intro r
        unfold generate_download_url
        rw [hget]
        simp

/-- Witness for C1: the owner of a concrete soft-deleted item gets NotFound. -/
theorem deleted_item_download_denied_witness :
    generate_download_url degradedService [sampleDeletedItem]
        (some { id := "owner-1", username := "owner-1" }) "i1"
      = (Except.error ApiError.notFound, 0) :=
  (deleted_item_download_denied degradedService [sampleDeletedItem] "i1" (by decide)).1
    { id := "owner-1", username := "owner-1" }

/-- C2: the claim (spec rule 3: a public item is allowed for every caller) states the
clear intent — the endpoint's own comment announces an owner-or-public check — but
the code is wrong at the failing input. `upload.py` line 119 computes
`is_public = item.visibility == "public"`, comparing the `VisibilityType` enum
member (loaded via `Column(Enum(VisibilityType))`) with a string, which in Python
is always False for a plain Enum, so the public-visibility rule is inoperative.
Evaluated at a public, non-deleted item: an authenticated caller who is not the
owner is denied 403 Forbidden instead of being allowed, and an anonymous caller is
denied 401 by the required identity dependency. -/
theorem public_item_download_code_bug :
    samplePublicItem.visibility = VisibilityType.public
    ∧ samplePublicItem.deleted_at = none
    ∧ samplePublicItem.user_profile_id ≠ callerB.id
    ∧ generate_download_url degradedService [samplePublicItem] (some callerB) "i1"
        = (Except.error ApiError.forbidden, 0)
    ∧ generate_download_url degradedService [samplePublicItem] none "i1"
        = (Except.error ApiError.unauthenticated, 0) :=
  ⟨rfl, rfl, by decide, rfl, rfl⟩

/-! ### C3 and C4: credential issuer -/

/-- C3 as stated is false on the code for the download side: in Degraded mode the
download credential is the bare placeholder URL string — the whole response is the
URL, whose only non-live marker is the `?mock=true` query suffix — so no test can
distinguish it from a live response without inspecting the returned URL (any
discriminator that is URL-independent on successful responses cannot separate the
degraded result from a live provider's result). -/
theorem degraded_download_no_flag :
    (generate_presigned_download_url degradedService "uploads/k" 3600
       = (Except.ok "https://bucket.s3.amazonaws.com/uploads/k?mock=true", 0))
    ∧ ¬ ∃ flag : Except String String → Bool,
        (∀ u v : String, flag (Except.ok u) = flag (Except.ok v))
        ∧ ∀ (client : ProviderClient) (url : String),
            client.presignedGetUrl "bucket" "uploads/k" 3600 = Except.ok url →
            flag (generate_presigned_download_url degradedService "uploads/k" 3600).1
              ≠ flag (generate_presigned_download_url
                  { s3_client := some client, bucket_name := "bucket" } "uploads/k" 3600).1 := by
  constructor
  · rfl
  · rintro ⟨flag, hconst, hdist⟩
    have hdiff := hdist
      { presignedPost := fun _ => Except.ok ("", []),
        presignedGetUrl := fun _ _ _ => Except.ok "live-url" } "live-url" rfl
    have hd : (generate_presigned_download_url degradedService "uploads/k" 3600).1
        = Except.ok "https://bucket.s3.amazonaws.com/uploads/k?mock=true" := rfl
    have hl : (generate_presigned_download_url
        { s3_client := some { presignedPost := fun _ => Except.ok ("", []),
                              presignedGetUrl := fun _ _ _ => Except.ok "live-url" },
          bucket_name := "bucket" } "uploads/k" 3600).1 = Except.ok "live-url" := rfl
    rw [hd, hl] at hdiff
    exact hdiff (hconst _ _)

/-- C3 corrected: in Degraded mode neither operation performs any provider call, for
any input; `generate_presigned_upload_url` returns a response carrying the explicit
`is_mock = true` flag, but `generate_presigned_download_url` returns only the
placeholder URL string whose `?mock=true` suffix must be read off the URL itself. -/
theorem degraded_mode_behaviour (bucket filename content_type user_id : String)
    (y m : Nat) (tok : String) (e1 e2 : Nat) (s3_key : String) :
    ((generate_presigned_upload_url { s3_client := none, bucket_name := bucket }
        filename content_type user_id y m tok e1).2 = none
     ∧ ∃ info, (generate_presigned_upload_url { s3_client := none, bucket_name := bucket }
          filename content_type user_id y m tok e1).1 = Except.ok info
        ∧ info.is_mock = true)
    ∧ ((generate_presigned_download_url { s3_client := none, bucket_name := bucket }
          s3_key e2).2 = 0
       ∧ (generate_presigned_download_url { s3_client := none, bucket_name := bucket }
            s3_key e2).1
           = Except.ok ("https://" ++ bucket ++ ".s3.amazonaws.com/" ++ s3_key ++ "?mock=true")) :=
  ⟨⟨rfl, ⟨_, rfl, rfl⟩⟩, rfl, rfl⟩

/-- C4: in Live mode, for every filename, content type and owner id, the upload grant
request handed to the provider carries exactly four enforced conditions — exact
content-type match, metadata tags binding the grant to the owner id and to the
original filename, and the server-enforced inclusive size range
[1, 100*1024*1024] — and is scoped to the derived storage key. -/
theorem live_upload_grant_conditions (client : ProviderClient) (bucket : String)
    (filename content_type user_id : String) (y m : Nat) (tok : String) (e : Nat) :
    ∃ req : PresignedPostRequest,
      (generate_presigned_upload_url { s3_client := some client, bucket_name := bucket }
        filename content_type user_id y m tok e).2 = some req
      ∧ PostCondition.exactField "Content-Type" content_type ∈ req.conditions
      ∧ PostCondition.exactField "x-amz-meta-user-id" user_id ∈ req.conditions
      ∧ PostCondition.exactField "x-amz-meta-original-filename" filename ∈ req.conditions
      ∧ PostCondition.contentLengthRange 1 (100 * 1024 * 1024) ∈ req.conditions
      ∧ req.conditions.length = 4
      ∧ req.key = generate_s3_key filename user_id y m tok
      ∧ req.expiresIn = e := by
  refine ⟨{ bucket := bucket, key := generate_s3_key filename user_id y m tok,
            fields := [("Content-Type", content_type), ("x-amz-meta-user-id", user_id),
                       ("x-amz-meta-original-filename", filename)],
            conditions := [PostCondition.exactField "Content-Type" content_type,
                           PostCondition.exactField "x-amz-meta-user-id" user_id,
                           PostCondition.exactField "x-amz-meta-original-filename" filename,
                           PostCondition.contentLengthRange 1 (100 * 1024 * 1024)],
            expiresIn := e }, ?_, by simp, by simp, by simp, by simp, rfl, rfl, rfl⟩
  simp only [generate_presigned_upload_url]
  split <;> rfl

/-! ### C7, C8 and C9: upload endpoint ordering, anonymity and token handling -/

theorem generate_presigned_upload_url_error_trace (svc : S3Service)
    (filename content_type user_id : String) (y m : Nat) (tok : String) (e : Nat) (s : String)
    (h : (generate_presigned_upload_url svc filename content_type user_id y m tok e).1
          = Except.error s) :
    ∃ req, (generate_presigned_upload_url svc filename content_type user_id y m tok e).2
      = some req := by
  rcases svc with ⟨cl, bn⟩
  cases cl with
  | none => simp [generate_presigned_upload_url] at h
  | some client =>
    simp only [generate_presigned_upload_url]
    split <;> exact ⟨_, rfl⟩

theorem upload_debug_anon_eq (max_len : Nat) (ct_ok : String → Bool) (svc : S3Service)
    (filename content_type : String) (file_size : Nat) (y m : Nat) (tok : String) :
    generate_real_presigned_url max_len ct_ok svc true none filename content_type
        file_size y m tok
      = generate_real_presigned_url max_len ct_ok svc true (some test_user) filename
          content_type file_size y m tok := rfl

/-- C7: an upload-credential request whose (filename, contentType, declaredSize)
fails validation is rejected with 400 from local data alone — the provider-call
trace stays empty — and a provider error (500) is only possible when validation
returned true and an owner identity was established (an authenticated caller, or
the debug substitution), in which case the provider really was contacted.
Validation itself is spec-modelled (`validate_upload_request`); the ordering is
from the source endpoint. -/
theorem validation_precedes_provider (max_len : Nat) (ct_ok : String → Bool)
    (svc : S3Service) (debug : Bool) (cu : Option User)
    (filename content_type : String) (file_size : Nat) (y m : Nat) (tok : String) :
    ((validate_upload_request max_len ct_ok filename content_type file_size).1 = false →
      generate_real_presigned_url max_len ct_ok svc debug cu filename content_type
          file_size y m tok
        = (Except.error ApiError.invalidRequest, none))
    ∧ ((generate_real_presigned_url max_len ct_ok svc debug cu filename content_type
          file_size y m tok).1 = Except.error ApiError.providerError →
        (validate_upload_request max_len ct_ok filename content_type file_size).1 = true
        ∧ (cu ≠ none ∨ debug = true)
        ∧ (generate_real_presigned_url max_len ct_ok svc debug cu filename content_type
            file_size y m tok).2 ≠ none) := by
  constructor
  · intro hv
    simp [generate_real_presigned_url, hv]
  · intro he
    by_cases hv : (validate_upload_request max_len ct_ok filename content_type file_size).1
        = false
    · exfalso
      simp [generate_real_presigned_url, hv] at he
    · have hv' : (validate_upload_request max_len ct_ok filename content_type file_size).1
          = true := by
        revert hv
        cases (validate_upload_request max_len ct_ok filename content_type file_size).1 <;> simp
      refine ⟨hv', ?_⟩
      cases cu with
      | some u =>
        refine ⟨Or.inl (by simp), ?_⟩
        rcases hcall : generate_presigned_upload_url svc filename content_type u.id y m tok 3600
          with ⟨res, trace⟩
        cases res with
        | ok info =>
          exfalso
          simp [generate_real_presigned_url, hv', hcall] at he
        | error s =>
          obtain ⟨req, hreq⟩ := generate_presigned_upload_url_error_trace svc filename
            content_type u.id y m tok 3600 s (by rw [hcall])
          rw [hcall] at hreq
          simp only at hreq
          simp [generate_real_presigned_url, hv', hcall, hreq]
      | none =>
        cases debug with
        | false =>
          exfalso
          simp [generate_real_presigned_url, hv'] at he
        | true =>
          refine ⟨Or.inr rfl, ?_⟩
          rcases hcall : generate_presigned_upload_url svc filename content_type "test-user"
              y m tok 3600 with ⟨res, trace⟩
          cases res with
          | ok info =>
            exfalso
            simp [generate_real_presigned_url, hv', hcall] at he
          | error s =>
            obtain ⟨req, hreq⟩ := generate_presigned_upload_url_error_trace svc filename
              content_type "test-user" y m tok 3600 s (by rw [hcall])
            rw [hcall] at hreq
            simp only at hreq
            simp [generate_real_presigned_url, hv', hcall, hreq]

/-- Witness for C7: a concrete request with an empty filename is rejected with 400
and an empty provider trace. -/
theorem validation_precedes_provider_witness :
    generate_real_presigned_url 255 (fun _ => true) degradedService true none ""
        "text/plain" 5 2024 12 "tok"
      = (Except.error ApiError.invalidRequest, none) :=
  (validation_precedes_provider 255 (fun _ => true) degradedService true none ""
    "text/plain" 5 2024 12 "tok").1 (by decide)

/-- C8: when the caller identity is absent on an (otherwise valid) upload-credential
request: with the debug flag unset the request fails with Unauthenticated (401)
and the provider-call trace stays empty (the service — and hence key derivation —
is never invoked); with the debug flag set the request proceeds exactly as if the
fixed placeholder identity `test-user` were the authenticated owner. -/
theorem anonymous_upload_policy (max_len : Nat) (ct_ok : String → Bool) (svc : S3Service)
    (filename content_type : String) (file_size : Nat) (y m : Nat) (tok : String) :
    ((validate_upload_request max_len ct_ok filename content_type file_size).1 = true →
      generate_real_presigned_url max_len ct_ok svc false none filename content_type
          file_size y m tok
        = (Except.error ApiError.unauthenticated, none)
      ∧ ApiError.unauthenticated.status = 401)
    ∧ generate_real_presigned_url max_len ct_ok svc true none filename content_type
          file_size y m tok
        = generate_real_presigned_url max_len ct_ok svc true (some test_user) filename
            content_type file_size y m tok := by
  constructor
  · intro hv
    refine ⟨?_, rfl⟩
    simp [generate_real_presigned_url, hv]
  · exact upload_debug_anon_eq max_len ct_ok svc filename content_type file_size y m tok

/-- Witness for C8: concrete valid anonymous request with debug unset → 401, no
provider call. -/
theorem anonymous_upload_policy_witness :
    generate_real_presigned_url 255 (fun _ => true) degradedService false none "a.jpg"
        "image/jpeg" 5 2024 12 "tok"
      = (Except.error ApiError.unauthenticated, none) :=
  ((anonymous_upload_policy 255 (fun _ => true) degradedService "a.jpg" "image/jpeg"
    5 2024 12 "tok").1 (by decide)).1

/-- C9 (implicit): a present-but-invalid bearer token — one whose decoding raises
(malformed, wrongly signed, expired), or whose payload lacks the `sub` claim, or
whose `sub` names an unknown user — makes the optional resolver return no identity
instead of raising, so the upload endpoint treats the request exactly like an
anonymous one, including the debug placeholder-identity path. -/
theorem invalid_token_resolves_anonymous (lookup : String → Option User)
    (creds : Except Unit (Option String)) :
    ((∀ er : Unit, creds = Except.error er →
        get_current_user_optional lookup (some creds) = none)
     ∧ (creds = Except.ok none → get_current_user_optional lookup (some creds) = none)
     ∧ (∀ s, creds = Except.ok (some s) → lookup s = none →
          get_current_user_optional lookup (some creds) = none))
    ∧ (get_current_user_optional lookup (some creds) = none →
        ∀ (max_len : Nat) (ct_ok : String → Bool) (svc : S3Service) (debug : Bool)
          (filename content_type : String) (file_size : Nat) (y m : Nat) (tok : String),
          generate_real_presigned_url max_len ct_ok svc debug
              (get_current_user_optional lookup (some creds)) filename content_type
              file_size y m tok
            = generate_real_presigned_url max_len ct_ok svc debug none filename
                content_type file_size y m tok
          ∧ generate_real_presigned_url max_len ct_ok svc true
              (get_current_user_optional lookup (some creds)) filename content_type
              file_size y m tok
            = generate_real_presigned_url max_len ct_ok svc true (some test_user)
                filename content_type file_size y m tok) := by
  refine ⟨⟨?_, ?_, ?_⟩, ?_⟩
  · rintro er rfl
    rfl
  · rintro rfl
    rfl
  · intro s hs hl
    subst hs
    simp [get_current_user_optional, hl]
  · intro h max_len ct_ok svc debug filename content_type file_size y m tok
    rw [h]
    exact ⟨rfl, upload_debug_anon_eq max_len ct_ok svc filename content_type file_size y m tok⟩

/-- Witness for C9: a token that fails decoding resolves to no identity. -/
theorem invalid_token_resolves_anonymous_witness :
    get_current_user_optional (fun _ => none) (some (Except.error ())) = none :=
  (invalid_token_resolves_anonymous (fun _ => none) (Except.error ())).1.1 () rfl

end LibYouk
